import Mathlib

/-!
Shallow embedding of the scene-runner synchronization core of the
bevy-explorer client, covering the per-scene entity-id table
(`crates/scene_runner/src/renderer_context.rs`) and the scene lifecycle /
pointer-cache systems (`src/scene_runner/initialize_scene.rs`), together
with theorems settling the frozen claims about them.

Machine integers are modelled as `Nat` with explicit `% 65536` where u16
overflow matters.  Renderer entity handles (`bevy::Entity`) are opaque and
modelled as `Nat`.  The live-entity table `Vec<(u16, Option<Entity>)>` is
modelled as a `List (Nat × Option Entity)`; an element access is
`l[i]?`, which returns `none` exactly when the Rust
`get_unchecked` access would be out of bounds (undefined behaviour).
-/

namespace BevyExplorer

/-- Renderer-side entity handle (`bevy::Entity`), opaque. -/
abbrev Entity := Nat

/-- `SceneEntityId { id: u16, generation: u16 }` from `dcl_component`. -/
structure SceneEntityId where
  id : Nat
  generation : Nat
deriving DecidableEq, Repr

/-- Modelled from the spec: the `SceneEntityId` reserved constants live in
the `dcl_component` crate, which is not among the provided sources.  The
spec says ROOT is "the scene's own root, always generation 0"; its index is
the conventional scene-root index 0 (the id used by
`RendererSceneContext::new` to seed the table). -/
def SceneEntityId.ROOT : SceneEntityId := ⟨0, 0⟩

/-- u16::MAX, the length of the live-entity table. -/
def U16_MAX : Nat := 65535

/-- 2^16, the modulus for u16 arithmetic. -/
def U16_MOD : Nat := 65536

/-- `type LiveEntityTable = Vec<(u16, Option<Entity>)>`. -/
abbrev LiveEntityTable := List (Nat × Option Entity)

/-- The fields of `RendererSceneContext` relevant to the entity-id table
claims.  The remaining fields (hash, bounds, crdt store, flags, ...) do not
participate in the table operations. -/
structure RendererSceneContext where
  live_entities : LiveEntityTable
deriving DecidableEq, Repr

namespace RendererSceneContext

/-- `RendererSceneContext::new`: the table is
`Vec::from_iter(std::iter::repeat((0, None)).take(u16::MAX as usize))`,
then slot `ROOT.id` is overwritten with `(ROOT.generation, Some(root))`. -/
def new (root : Entity) : RendererSceneContext :=
  { live_entities :=
      (List.replicate U16_MAX ((0 : Nat), (none : Option Entity))).set
        SceneEntityId.ROOT.id (SceneEntityId.ROOT.generation, some root) }

/-- `entity_entry` / `entity_entry_mut` read slot `id` of the table with
`get_unchecked`; the access is defined exactly when `id` is within bounds,
so the model returns `none` for the out-of-bounds (undefined behaviour)
case. -/
def entity_entry (ctx : RendererSceneContext) (id : Nat) :
    Option (Nat × Option Entity) :=
  ctx.live_entities[id]?

/-- `associate_bevy_entity`: writes `(generation, Some(bevy_entity))` into
slot `scene_entity.id` (the two `dcl_assert!` preconditions are modelled
separately as `associate_pre`). -/
def associate_bevy_entity (ctx : RendererSceneContext)
    (scene_entity : SceneEntityId) (bevy : Entity) : RendererSceneContext :=
  { ctx with live_entities :=
      (ctx.live_entities.set scene_entity.id
        (scene_entity.generation, some bevy)) }

/-- The `dcl_assert!` preconditions of `associate_bevy_entity`:
`entity_entry(id).0 <= generation` and `entity_entry(id).1.is_none()`
(implicitly the slot must exist, i.e. the id is in bounds). -/
def associate_pre (ctx : RendererSceneContext)
    (scene_entity : SceneEntityId) : Prop :=
  ∃ g, ctx.live_entities[scene_entity.id]? = some (g, none) ∧
    g ≤ scene_entity.generation

/-- `bevy_entity`: returns the handle iff the stored generation equals the
requested generation. -/
def bevy_entity (ctx : RendererSceneContext) (scene_entity : SceneEntityId) :
    Option Entity :=
  match ctx.live_entities[scene_entity.id]? with
  | some (g, some b) =>
      if g = scene_entity.generation then some b else none
  | _ => none

/-- `set_dead`: if the stored generation equals the requested generation,
increments the stored generation (u16 wrap-around) and clears the handle;
otherwise leaves the entry unchanged. -/
def set_dead (ctx : RendererSceneContext) (entity : SceneEntityId) :
    RendererSceneContext :=
  match ctx.live_entities[entity.id]? with
  | some (g, _) =>
      if g = entity.generation then
        { ctx with live_entities :=
            (ctx.live_entities.set entity.id ((g + 1) % U16_MOD, none)) }
      else ctx
  | none => ctx

/-- `is_dead`: true iff the stored generation strictly exceeds the
requested generation. -/
def is_dead (ctx : RendererSceneContext) (entity : SceneEntityId) : Bool :=
  match ctx.live_entities[entity.id]? with
  | some (g, _) => decide (entity.generation < g)
  | none => false

end RendererSceneContext

/-- A single entity-table operation. -/
inductive TableOp where
  | associate (e : SceneEntityId) (b : Entity)
  | kill (e : SceneEntityId)
deriving DecidableEq, Repr

/-- Apply one table operation. -/
def applyOp (ctx : RendererSceneContext) : TableOp → RendererSceneContext
  | .associate e b => ctx.associate_bevy_entity e b
  | .kill e => ctx.set_dead e

/-- Precondition of one table operation: `associate_bevy_entity` carries
its `dcl_assert!` precondition, `set_dead` is total. -/
def opOk (ctx : RendererSceneContext) : TableOp → Prop
  | .associate e _ => ctx.associate_pre e
  | .kill _ => True

/-- Apply a sequence of table operations, left to right. -/
def applyOps (ctx : RendererSceneContext) (ops : List TableOp) :
    RendererSceneContext :=
  ops.foldl applyOp ctx

/-- Every operation of the sequence satisfies its precondition in the
state where it executes. -/
def OpsOk : RendererSceneContext → List TableOp → Prop
  | _, [] => True
  | ctx, op :: rest => opOk ctx op ∧ OpsOk (applyOp ctx op) rest

/-- Table states reachable from a fresh context by precondition-respecting
operation sequences. -/
inductive Reachable : RendererSceneContext → Prop where
  | base (root : Entity) : Reachable (RendererSceneContext.new root)
  | step {ctx : RendererSceneContext} {op : TableOp} :
      Reachable ctx → opOk ctx op → Reachable (applyOp ctx op)

/-! ### Helper lemmas about the entity-id table -/

theorem succ_mod_u16_ne (g : Nat) : (g + 1) % U16_MOD ≠ g := by
  simp only [U16_MOD]
  omega

theorem associate_live_entities (ctx : RendererSceneContext)
    (e : SceneEntityId) (b : Entity) :
    (ctx.associate_bevy_entity e b).live_entities =
      ctx.live_entities.set e.id (e.generation, some b) := rfl

theorem set_dead_live_entities (ctx : RendererSceneContext)
    (e : SceneEntityId) (g : Nat) (h : Option Entity)
    (hs : ctx.live_entities[e.id]? = some (g, h)) :
    (ctx.set_dead e).live_entities =
      if g = e.generation then
        ctx.live_entities.set e.id ((g + 1) % U16_MOD, none)
      else ctx.live_entities := by
  unfold RendererSceneContext.set_dead
  rw [hs]
  by_cases hg : g = e.generation <;> simp [hg]

theorem set_dead_live_entities_eq (ctx : RendererSceneContext)
    (e : SceneEntityId) (g : Nat) (h : Option Entity)
    (hs : ctx.live_entities[e.id]? = some (g, h))
    (hg : g = e.generation) :
    (ctx.set_dead e).live_entities =
      ctx.live_entities.set e.id ((g + 1) % U16_MOD, none) := by
  unfold RendererSceneContext.set_dead
  rw [hs]
  simp [hg]

theorem set_dead_noop (ctx : RendererSceneContext)
    (e : SceneEntityId) (g : Nat) (h : Option Entity)
    (hs : ctx.live_entities[e.id]? = some (g, h))
    (hne : g ≠ e.generation) : ctx.set_dead e = ctx := by
  unfold RendererSceneContext.set_dead
  rw [hs]
  simp [hne]

theorem set_dead_getElem_ne (ctx : RendererSceneContext)
    (e : SceneEntityId) (j : Nat) (hj : e.id ≠ j) :
    (ctx.set_dead e).live_entities[j]? = ctx.live_entities[j]? := by
  unfold RendererSceneContext.set_dead
  cases hsc : ctx.live_entities[e.id]? with
  | none => rfl
  | some p =>
      obtain ⟨g, h⟩ := p
      by_cases hg : g = e.generation <;>
        simp [hg, List.getElem?_set_ne hj]

theorem bevy_entity_eval (ctx : RendererSceneContext)
    (e : SceneEntityId) (g : Nat) (b : Option Entity)
    (hs : ctx.live_entities[e.id]? = some (g, b)) :
    ctx.bevy_entity e = if g = e.generation then b else none := by
  unfold RendererSceneContext.bevy_entity
  rw [hs]
  cases b <;> by_cases hg : g = e.generation <;> simp [hg]

theorem is_dead_eval (ctx : RendererSceneContext)
    (e : SceneEntityId) (g : Nat) (b : Option Entity)
    (hs : ctx.live_entities[e.id]? = some (g, b)) :
    ctx.is_dead e = decide (e.generation < g) := by
  unfold RendererSceneContext.is_dead
  rw [hs]

theorem new_live_entities (root : Entity) :
    (RendererSceneContext.new root).live_entities =
      (List.replicate U16_MAX ((0 : Nat), (none : Option Entity))).set 0
        (0, some root) := rfl

theorem new_getElem_root (root : Entity) :
    (RendererSceneContext.new root).live_entities[SceneEntityId.ROOT.id]? =
      some (0, some root) := by
  rw [new_live_entities]
  exact List.getElem?_set_self
    (by simp only [List.length_replicate]; decide)

theorem new_getElem_other (root : Entity) (j : Nat) (hj0 : j ≠ 0)
    (hjlt : j < U16_MAX) :
    (RendererSceneContext.new root).live_entities[j]? = some (0, none) := by
  rw [new_live_entities]
  rw [List.getElem?_set_ne (fun h => hj0 h.symm)]
  rw [List.getElem?_replicate]
  simp [hjlt]

/-! ### Claims C1, C2, C3, C7, C9 -/

/-- C1: EntityIdTable lifecycle scenario.  Starting from a table whose slot
`idx` stores generation `gen1` with no handle, after
`associate(⟨idx,gen1⟩, h1)`, `set_dead(⟨idx,gen1⟩)`,
`associate(⟨idx,gen1+1⟩, h2)`: `bevy_entity(⟨idx,gen1⟩)` is `none`,
`bevy_entity(⟨idx,gen1+1⟩)` is `some h2`, and `is_dead(⟨idx,gen1⟩)` is
`true`. -/
theorem c1_entity_lifecycle (ctx : RendererSceneContext)
    (idx gen1 : Nat) (h1 h2 : Entity)
    (hstart : ctx.live_entities[idx]? = some (gen1, none))
    (hgen : gen1 + 1 < U16_MOD) :
    ((((ctx.associate_bevy_entity ⟨idx, gen1⟩ h1).set_dead
        ⟨idx, gen1⟩).associate_bevy_entity ⟨idx, gen1 + 1⟩ h2).bevy_entity
          ⟨idx, gen1⟩ = none)
    ∧ ((((ctx.associate_bevy_entity ⟨idx, gen1⟩ h1).set_dead
        ⟨idx, gen1⟩).associate_bevy_entity ⟨idx, gen1 + 1⟩ h2).bevy_entity
          ⟨idx, gen1 + 1⟩ = some h2)
    ∧ ((((ctx.associate_bevy_entity ⟨idx, gen1⟩ h1).set_dead
        ⟨idx, gen1⟩).associate_bevy_entity ⟨idx, gen1 + 1⟩ h2).is_dead
          ⟨idx, gen1⟩ = true) := by
  obtain ⟨hlen, -⟩ := List.getElem?_eq_some_iff.mp hstart
  have hA : (ctx.associate_bevy_entity ⟨idx, gen1⟩ h1).live_entities =
      ctx.live_entities.set idx (gen1, some h1) := rfl
  have hAe : (ctx.associate_bevy_entity ⟨idx, gen1⟩
      h1).live_entities[idx]? = some (gen1, some h1) := by
    rw [hA]
    exact List.getElem?_set_self hlen
  have hB : ((ctx.associate_bevy_entity ⟨idx, gen1⟩ h1).set_dead
      ⟨idx, gen1⟩).live_entities = ctx.live_entities.set idx (gen1 + 1, none) := by
    rw [set_dead_live_entities_eq _ _ _ _ hAe rfl]
    rw [hA, List.set_set, Nat.mod_eq_of_lt hgen]
  have hC : (((ctx.associate_bevy_entity ⟨idx, gen1⟩ h1).set_dead
      ⟨idx, gen1⟩).associate_bevy_entity ⟨idx, gen1 + 1⟩
        h2).live_entities = ctx.live_entities.set idx (gen1 + 1, some h2) := by
    rw [associate_live_entities, hB, List.set_set]
  have hCe : (((ctx.associate_bevy_entity ⟨idx, gen1⟩ h1).set_dead
      ⟨idx, gen1⟩).associate_bevy_entity ⟨idx, gen1 + 1⟩
        h2).live_entities[idx]? = some (gen1 + 1, some h2) := by
    rw [hC]
    exact List.getElem?_set_self hlen
  refine ⟨?_, ?_, ?_⟩
  · rw [bevy_entity_eval _ _ _ _ hCe]
    exact if_neg (by show ¬gen1 + 1 = gen1; omega)
  · rw [bevy_entity_eval _ _ _ _ hCe]
    exact if_pos rfl
  · rw [is_dead_eval _ _ _ _ hCe]
    show decide (gen1 < gen1 + 1) = true
    simp

/-- Witness for C1 at a concrete input. -/
theorem c1_entity_lifecycle_witness :
    ((⟨[((0 : Nat), (none : Option Entity))]⟩ :
        RendererSceneContext).live_entities[0]? = some (0, none))
    ∧ ((0 : Nat) + 1 < U16_MOD)
    ∧ (((((⟨[(0, none)]⟩ : RendererSceneContext).associate_bevy_entity
        ⟨0, 0⟩ 4).set_dead ⟨0, 0⟩).associate_bevy_entity ⟨0, 1⟩ 9).bevy_entity
          ⟨0, 1⟩ = some 9) :=
  ⟨rfl, by decide,
    (c1_entity_lifecycle ⟨[(0, none)]⟩ 0 0 4 9 rfl (by decide)).2.1⟩

/-- C2: the live-entity table created by `RendererSceneContext::new` has
`u16::MAX` (65535) slots, so the slot lookup succeeds exactly for ids
strictly below `u16::MAX`; for id = `u16::MAX` (65535) — a valid
`SceneEntityId.id` value — the access performed by
`entity_entry` falls outside the table (in the source this is an unchecked
`get_unchecked` access, i.e. undefined behaviour, despite the SAFETY
comment and the spec's "never an unchecked out-of-bounds access"). -/
theorem c2_entity_entry_out_of_bounds_at_max (root : Entity) :
    ((RendererSceneContext.new root).live_entities.length = U16_MAX)
    ∧ (∀ id : Nat, ((RendererSceneContext.new root).entity_entry id).isSome =
        decide (id < U16_MAX))
    ∧ ((RendererSceneContext.new root).entity_entry U16_MAX = none) := by
  have hlen : (RendererSceneContext.new root).live_entities.length = U16_MAX := by
    rw [new_live_entities]
    simp
  refine ⟨hlen, ?_, ?_⟩
  · intro id
    rcases Nat.lt_or_ge id U16_MAX with hid | hid
    · rw [RendererSceneContext.entity_entry,
        List.getElem?_eq_getElem (by omega)]
      simp [hid]
    · rw [RendererSceneContext.entity_entry,
        List.getElem?_eq_none (by omega)]
      simp
      omega
  · rw [RendererSceneContext.entity_entry,
      List.getElem?_eq_none (by omega)]

/-- C3 counterexample: the single-operation sequence `set_dead(ROOT)`
applied to a fresh context kills the scene root — the stored generation
becomes 1, `is_dead(ROOT)` is `true` and `bevy_entity(ROOT)` is `none`,
contradicting the claim that ROOT survives every operation sequence. -/
theorem c3_counterexample_root_killed :
    (((RendererSceneContext.new 7).set_dead
        SceneEntityId.ROOT).live_entities[SceneEntityId.ROOT.id]? =
          some (1, none))
    ∧ (((RendererSceneContext.new 7).set_dead SceneEntityId.ROOT).is_dead
        SceneEntityId.ROOT = true)
    ∧ (((RendererSceneContext.new 7).set_dead SceneEntityId.ROOT).bevy_entity
        SceneEntityId.ROOT = none) := by
  have hroot := new_getElem_root 7
  have hlive := set_dead_live_entities_eq _ SceneEntityId.ROOT 0 (some 7) hroot rfl
  have hlen : SceneEntityId.ROOT.id <
      (RendererSceneContext.new 7).live_entities.length := by
    rw [new_live_entities]
    simp only [List.length_set, List.length_replicate]
    decide
  have he : ((RendererSceneContext.new 7).set_dead
      SceneEntityId.ROOT).live_entities[SceneEntityId.ROOT.id]? =
        some ((0 + 1) % U16_MOD, none) := by
    rw [hlive]
    exact List.getElem?_set_self hlen
  rw [show (0 + 1) % U16_MOD = 1 by decide] at he
  refine ⟨he, ?_, ?_⟩
  · rw [is_dead_eval _ _ _ _ he]
    decide
  · rw [bevy_entity_eval _ _ _ _ he]
    exact if_neg (by decide)

/-- A Boolean recognizer for operation lists that never kill the ROOT
entity itself (used to state the amended C3). -/
def avoidsKillRoot : List TableOp → Bool
  | [] => true
  | op :: rest =>
      !(decide (op = TableOp.kill SceneEntityId.ROOT)) && avoidsKillRoot rest

theorem root_entry_step (root : Entity) (ctx : RendererSceneContext)
    (op : TableOp)
    (hP : ctx.live_entities[SceneEntityId.ROOT.id]? =
      some (SceneEntityId.ROOT.generation, some root))
    (hok : opOk ctx op) (hno : op ≠ TableOp.kill SceneEntityId.ROOT) :
    (applyOp ctx op).live_entities[SceneEntityId.ROOT.id]? =
      some (SceneEntityId.ROOT.generation, some root) := by
  cases op with
  | associate e b =>
      by_cases he : e.id = SceneEntityId.ROOT.id
      · obtain ⟨g, hg, -⟩ := hok
        rw [he, hP] at hg
        simp at hg
      · show (ctx.associate_bevy_entity e b).live_entities[_]? = _
        rw [associate_live_entities, List.getElem?_set_ne he]
        exact hP
  | kill e =>
      by_cases he : e.id = SceneEntityId.ROOT.id
      · have hPe : ctx.live_entities[e.id]? =
            some (SceneEntityId.ROOT.generation, some root) := by
          rw [he]; exact hP
        by_cases hgen : SceneEntityId.ROOT.generation = e.generation
        · exfalso
          apply hno
          obtain ⟨i, g⟩ := e
          have h1 : i = 0 := he
          have h2 : g = 0 := hgen.symm
          subst h1
          subst h2
          rfl
        · show (ctx.set_dead e).live_entities[_]? = _
          rw [set_dead_noop ctx e _ _ hPe hgen]
          exact hP
      · show (ctx.set_dead e).live_entities[_]? = _
        rw [set_dead_getElem_ne ctx e _ he]
        exact hP

theorem root_entry_preserved (root : Entity) (ops : List TableOp) :
    ∀ ctx : RendererSceneContext,
      ctx.live_entities[SceneEntityId.ROOT.id]? =
        some (SceneEntityId.ROOT.generation, some root) →
      OpsOk ctx ops → avoidsKillRoot ops = true →
      (applyOps ctx ops).live_entities[SceneEntityId.ROOT.id]? =
        some (SceneEntityId.ROOT.generation, some root) := by
  induction ops with
  | nil => intro ctx hP _ _; exact hP
  | cons op rest ih =>
      intro ctx hP hok hno
      obtain ⟨hok1, hokr⟩ := hok
      rw [avoidsKillRoot, Bool.and_eq_true, Bool.not_eq_true'] at hno
      obtain ⟨hno1, hnor⟩ := hno
      exact ih (applyOp ctx op)
        (root_entry_step root ctx op hP hok1 (of_decide_eq_false hno1))
        hokr hnor

/-- C3 amended: for every sequence of entity-table operations in which
each `associate_bevy_entity` satisfies its `dcl_assert!` precondition and
`set_dead` is never applied to `SceneEntityId::ROOT` itself, the stored
generation for ROOT remains 0, `is_dead(ROOT)` remains `false`, and
`bevy_entity(ROOT)` still returns the root handle supplied at
construction.  (The unamended claim fails: the code's `set_dead` has no
guard for ROOT, see `c3_counterexample_root_killed`.) -/
theorem c3_amended_root_immortal (root : Entity) (ops : List TableOp)
    (hok : OpsOk (RendererSceneContext.new root) ops)
    (hno : avoidsKillRoot ops = true) :
    ((applyOps (RendererSceneContext.new root)
        ops).live_entities[SceneEntityId.ROOT.id]? =
          some (SceneEntityId.ROOT.generation, some root))
    ∧ ((applyOps (RendererSceneContext.new root) ops).is_dead
        SceneEntityId.ROOT = false)
    ∧ ((applyOps (RendererSceneContext.new root) ops).bevy_entity
        SceneEntityId.ROOT = some root) := by
  have hP := root_entry_preserved root ops (RendererSceneContext.new root)
    (new_getElem_root root) hok hno
  refine ⟨hP, ?_, ?_⟩
  · rw [is_dead_eval _ _ _ _ hP]
    simp
  · rw [bevy_entity_eval _ _ _ _ hP]
    exact if_pos rfl

/-- Witness for the amended C3 at a concrete input. -/
theorem c3_amended_root_immortal_witness :
    OpsOk (RendererSceneContext.new 7) [TableOp.kill ⟨5, 0⟩]
    ∧ avoidsKillRoot [TableOp.kill ⟨5, 0⟩] = true
    ∧ (applyOps (RendererSceneContext.new 7)
        [TableOp.kill ⟨5, 0⟩]).bevy_entity SceneEntityId.ROOT = some 7 :=
  ⟨⟨trivial, trivial⟩, by decide,
    (c3_amended_root_immortal 7 [TableOp.kill ⟨5, 0⟩]
      ⟨trivial, trivial⟩ (by decide)).2.2⟩

/-- C7: `set_dead` is a guarded increment — it bumps the stored generation
(mod 2^16) and clears the handle iff the stored generation equals the
requested generation, and leaves the context unchanged otherwise; and it
is idempotent. -/
theorem c7_kill_guarded_idempotent (ctx : RendererSceneContext)
    (e : SceneEntityId) (g : Nat) (b : Option Entity)
    (hs : ctx.live_entities[e.id]? = some (g, b)) :
    (ctx.set_dead e =
      if g = e.generation then
        { live_entities :=
            ctx.live_entities.set e.id ((g + 1) % U16_MOD, none) }
      else ctx)
    ∧ (ctx.set_dead e).set_dead e = ctx.set_dead e := by
  obtain ⟨hlen, -⟩ := List.getElem?_eq_some_iff.mp hs
  constructor
  · unfold RendererSceneContext.set_dead
    rw [hs]
  · by_cases hg : g = e.generation
    · have h1 := set_dead_live_entities_eq ctx e g b hs hg
      have h2 : (ctx.set_dead e).live_entities[e.id]? =
          some ((g + 1) % U16_MOD, none) := by
        rw [h1]
        exact List.getElem?_set_self hlen
      exact set_dead_noop _ e _ none h2 (hg ▸ succ_mod_u16_ne g)
    · have hnoop := set_dead_noop ctx e g b hs hg
      rw [hnoop]
      exact hnoop

/-- Witness for C7 at a concrete input. -/
theorem c7_kill_guarded_idempotent_witness :
    ((⟨[((3 : Nat), some 5)]⟩ :
        RendererSceneContext).live_entities[0]? = some (3, some 5))
    ∧ ((⟨[(3, some 5)]⟩ : RendererSceneContext).set_dead
          ⟨0, 3⟩).set_dead ⟨0, 3⟩ =
        (⟨[(3, some 5)]⟩ : RendererSceneContext).set_dead ⟨0, 3⟩ :=
  ⟨rfl, (c7_kill_guarded_idempotent ⟨[(3, some 5)]⟩ ⟨0, 3⟩ 3 (some 5) rfl).2⟩

/-- C9: in every table state reachable from a fresh context by
precondition-respecting operations, a `SceneEntityId` reported dead by
`is_dead` never resolves to a handle through `bevy_entity`. -/
theorem c9_dead_never_resolves (ctx : RendererSceneContext)
    (_hreach : Reachable ctx) (e : SceneEntityId)
    (hdead : ctx.is_dead e = true) : ctx.bevy_entity e = none := by
  cases hsc : ctx.live_entities[e.id]? with
  | none =>
      unfold RendererSceneContext.bevy_entity
      rw [hsc]
  | some p =>
      obtain ⟨g, b⟩ := p
      have hd := is_dead_eval ctx e g b hsc
      rw [hdead] at hd
      have hlt : e.generation < g := of_decide_eq_true hd.symm
      rw [bevy_entity_eval ctx e g b hsc]
      exact if_neg (by omega)

/-- Witness for C9 at a concrete input. -/
theorem c9_dead_never_resolves_witness :
    Reachable (applyOp (RendererSceneContext.new 7) (TableOp.kill ⟨5, 0⟩))
    ∧ (applyOp (RendererSceneContext.new 7)
        (TableOp.kill ⟨5, 0⟩)).is_dead ⟨5, 0⟩ = true
    ∧ (applyOp (RendererSceneContext.new 7)
        (TableOp.kill ⟨5, 0⟩)).bevy_entity ⟨5, 0⟩ = none := by
  have hreach : Reachable (applyOp (RendererSceneContext.new 7)
      (TableOp.kill ⟨5, 0⟩)) :=
    Reachable.step (Reachable.base 7) trivial
  have h5 := new_getElem_other 7 5 (by decide) (by decide)
  have hlen5 : (5 : Nat) < (RendererSceneContext.new 7).live_entities.length := by
    rw [new_live_entities]
    simp only [List.length_set, List.length_replicate]
    decide
  have hlive := set_dead_live_entities_eq _ ⟨5, 0⟩ 0 none h5 rfl
  have hentry : (applyOp (RendererSceneContext.new 7)
      (TableOp.kill ⟨5, 0⟩)).live_entities[(5 : Nat)]? =
        some ((0 + 1) % U16_MOD, none) := by
    show ((RendererSceneContext.new 7).set_dead
      ⟨5, 0⟩).live_entities[(5 : Nat)]? = _
    rw [hlive]
    exact List.getElem?_set_self hlen5
  rw [show (0 + 1) % U16_MOD = 1 by decide] at hentry
  have hdead : (applyOp (RendererSceneContext.new 7)
      (TableOp.kill ⟨5, 0⟩)).is_dead ⟨5, 0⟩ = true := by
    rw [is_dead_eval _ ⟨5, 0⟩ 1 none hentry]
    decide
  exact ⟨hreach, hdead, c9_dead_never_resolves _ hreach ⟨5, 0⟩ hdead⟩

/-! ## Scene lifecycle and pointer cache
(`src/scene_runner/initialize_scene.rs`) -/

/-- `bevy::IVec2` parcel coordinates. -/
structure IVec2 where
  x : Int
  y : Int
deriving DecidableEq, Repr

/-- `PointerResult`: a parcel's resolution — `Nothing(x, y)` is a negative
cache entry carrying its own coordinates, `Exists(hash)` a content hash. -/
inductive PointerResult where
  | Nothing (x y : Int)
  | Exists (hash : String)
deriving DecidableEq, Repr

/-- Model of `bimap::BiMap<IVec2, PointerResult>` (the `ScenePointers`
resource) as a list of pairs. -/
abbrev BiMap := List (IVec2 × PointerResult)

namespace BiMap

/-- `bimap::BiMap::contains_left`. -/
def contains_left (m : BiMap) (l : IVec2) : Bool :=
  m.any fun p => decide (p.1 = l)

/-- `bimap::BiMap::contains_right`. -/
def contains_right (m : BiMap) (r : PointerResult) : Bool :=
  m.any fun p => decide (p.2 = r)

/-- `bimap::BiMap::get_by_left`. -/
def get_by_left (m : BiMap) (l : IVec2) : Option PointerResult :=
  (m.find? fun p => decide (p.1 = l)).map Prod.snd

/-- `bimap::BiMap::insert`: removes any existing pair sharing the left key
or the right value, then adds the new pair (the crate's overwrite-both
semantics). -/
def insert (m : BiMap) (l : IVec2) (r : PointerResult) : BiMap :=
  (m.filter fun p => !(decide (p.1 = l)) && !(decide (p.2 = r))) ++ [(l, r)]

end BiMap

/-- The `LiveScenes` resource `HashMap<IVec2, Entity>`, modelled as an
association list whose `insert` overwrites the key. -/
abbrev LiveScenes := List (IVec2 × Entity)

/-- `HashMap::insert` for `LiveScenes`. -/
def LiveScenes.insert (m : LiveScenes) (k : IVec2) (v : Entity) :
    LiveScenes :=
  (m.filter fun p => !(decide (p.1 = k))) ++ [(k, v)]

/-- `HashMap::get` for `LiveScenes`. -/
def LiveScenes.get (m : LiveScenes) (k : IVec2) : Option Entity :=
  (m.find? fun p => decide (p.1 = k)).map Prod.snd

/-- The `SceneDefinition` fields used by `load_scene_json`: the entity id
(content hash; empty when the pointer resolved to nothing) and the parcels
the scene spans. -/
structure SceneDefinition where
  id : String
  pointers : List IVec2
deriving DecidableEq, Repr

/-- The pointer/live-scenes update loop of `load_scene_json` (lines
107-113 of `initialize_scene.rs`): for every `pointer` of the definition,
`live_scenes` gains `pointer ↦ entity`, while `pointers` gains an `Exists`
entry at `definition.pointers[0]` — the source inserts the first pointer
on every iteration, not the iterated one. -/
def load_scene_json_pointer_update (definition : SceneDefinition)
    (entity : Entity) (state : LiveScenes × BiMap) : LiveScenes × BiMap :=
  definition.pointers.foldl
    (fun acc pointer =>
      (LiveScenes.insert acc.1 pointer entity,
        match definition.pointers.head? with
        | some p0 =>
            BiMap.insert acc.2 p0 (PointerResult.Exists definition.id)
        | none => acc.2))
    state

/-- The parcel scan of `process_scene_lifecycle` (lines 421-451)
restricted to its required-parcel outcome: an in-range parcel joins
`required_parcels` exactly when it has no live scene and the pointer cache
has no entry for it (`Exists` spawns, `Nothing` is a negative-cache hit,
`None` requires a lookup). -/
def requiredParcels (pointers : BiMap) (live : LiveScenes)
    (inRange : List IVec2) : List IVec2 :=
  inRange.filter fun parcel =>
    (LiveScenes.get live parcel).isNone
      && (BiMap.get_by_left pointers parcel).isNone

/-- The filter applied before issuing a pointer network request (line 485:
`required_parcels.retain(|parcel| !pointers.0.contains_left(parcel))`);
the surviving parcels form the request set. -/
def pointerRequest (pointers : BiMap) (required : List IVec2) :
    List IVec2 :=
  required.filter fun parcel => !(BiMap.contains_left pointers parcel)

/-- The pointer-cache insertions the lifecycle systems perform: a positive
entry for a parcel of a retrieved active entity (line 529-531), or a
negative entry carrying the parcel's own coordinates (lines 542-547). -/
inductive CacheInsert where
  | found (parcel : IVec2) (hash : String)
  | empty (parcel : IVec2)
deriving DecidableEq, Repr

/-- The parcel a cache insertion targets. -/
def CacheInsert.parcel : CacheInsert → IVec2
  | .found p _ => p
  | .empty p => p

/-- Apply one cache insertion. -/
def applyCacheInsert (m : BiMap) : CacheInsert → BiMap
  | .found p h => BiMap.insert m p (PointerResult.Exists h)
  | .empty p => BiMap.insert m p (PointerResult.Nothing p.x p.y)

/-- Apply a sequence of cache insertions, left to right. -/
def applyCacheInserts (m : BiMap) (ops : List CacheInsert) : BiMap :=
  ops.foldl applyCacheInsert m

/-- Boolean recognizer for insertion sequences that never target parcel
`p` (used to state the amended C6). -/
def avoidsParcel (p : IVec2) : List CacheInsert → Bool
  | [] => true
  | op :: rest => !(decide (CacheInsert.parcel op = p)) && avoidsParcel p rest

/-- The realm gate of `process_scene_lifecycle` (lines 386-394): state
carried across invocations in `Local` system params. -/
structure RealmGateState where
  pending_realm_scenes : List PointerResult
  current_config : Option Unit
  realm_scenes : List (String × String)
deriving Repr

/-- Line 387: `pending_realm_scenes.retain(|hash|
!pointers.0.contains_right(hash))`. -/
def retainPending (pointers : BiMap) (pending : List PointerResult) :
    List PointerResult :=
  pending.filter fun h => !(BiMap.contains_right pointers h)

/-- Whether one invocation of `process_scene_lifecycle` reaches the
distance-based scheduling section (and hence may spawn proximity scenes or
issue a pointer request): lines 389-394 return early when pending realm
scenes remain, when no realm config has arrived, or — the incompleteness
the source comments with "for now just stop if there are scenes specified
in the globals" — whenever the realm specified any scene at all. -/
def distance_scheduling_runs (pointers : BiMap) (st : RealmGateState) :
    Bool :=
  !((!(retainPending pointers st.pending_realm_scenes).isEmpty)
    || st.current_config.isNone
    || !st.realm_scenes.isEmpty)

/-- `bevy::asset::LoadState` as observed by the loading systems. -/
inductive LoadState where
  | NotLoaded
  | Loading
  | Loaded
  | Failed
  | Unloaded
deriving DecidableEq, Repr

/-- The `SceneLoading` component: lifecycle loading substates. -/
inductive SceneLoading where
  | SceneSpawned
  | SceneEntity
  | SceneMeta
  | Javascript
deriving DecidableEq, Repr

/-- What a loading system does to one loading scene entity in one run. -/
inductive LoadAction where
  | Wait
  | Despawn
  | RemoveLoading
  | Advance (next : SceneLoading)
  | Start
  | MarkBroken
deriving DecidableEq, Repr

/-- `load_scene_json` (SceneEntity substate), per-entity action: `Failed`
load state or an unresolvable asset despawns recursively; an empty
definition id removes `SceneLoading` without despawning; a `scene.json`
load error despawns; otherwise advance to `SceneMeta`. -/
def load_scene_json_step (ls : LoadState)
    (definition : Option SceneDefinition)
    (meta_load : Except String Unit) : LoadAction :=
  match ls with
  | .Loaded =>
      match definition with
      | none => .Despawn
      | some d =>
          if d.id = "" then .RemoveLoading
          else
            match meta_load with
            | .error _ => .Despawn
            | .ok _ => .Advance .SceneMeta
  | .Failed => .Despawn
  | _ => .Wait

/-- `load_scene_javascript` (SceneMeta substate), per-entity action. -/
def load_scene_javascript_step (ls : LoadState) (meta : Option Unit)
    (js_load : Except String Unit) : LoadAction :=
  match ls with
  | .Loaded =>
      match meta with
      | none => .Despawn
      | some _ =>
          match js_load with
          | .error _ => .Despawn
          | .ok _ => .Advance .Javascript
  | .Failed => .Despawn
  | _ => .Wait

/-- `initialize_scene` (Javascript substate), per-entity action. -/
def initialize_scene_step (ls : LoadState) (js : Option Unit) :
    LoadAction :=
  match ls with
  | .Loaded =>
      match js with
      | none => .Despawn
      | some _ => .Start
  | .Failed => .Despawn
  | _ => .Wait

/-! ### Claims C4, C5, C6, C8, C10 -/

/-- C4 (code-bug evaluation): running the `load_scene_json` pointer loop
on definition `H` spanning parcels (1,1) and (2,1) puts both parcels into
`LiveScenes`, but `ScenePointers` gains an `Exists` entry only at (1,1)
(the source inserts `definition.pointers[0]` on every iteration): parcel
(2,1) is live with no corresponding `Exists` pointer entry, violating the
claimed invariant. -/
theorem c4_live_scene_without_pointer_entry :
    (LiveScenes.get
      (load_scene_json_pointer_update ⟨"H", [⟨1, 1⟩, ⟨2, 1⟩]⟩ 42
        ([], [])).1 ⟨2, 1⟩ = some 42)
    ∧ (BiMap.get_by_left
      (load_scene_json_pointer_update ⟨"H", [⟨1, 1⟩, ⟨2, 1⟩]⟩ 42
        ([], [])).2 ⟨2, 1⟩ = none)
    ∧ (BiMap.get_by_left
      (load_scene_json_pointer_update ⟨"H", [⟨1, 1⟩, ⟨2, 1⟩]⟩ 42
        ([], [])).2 ⟨1, 1⟩ = some (PointerResult.Exists "H")) := by
  decide

/-- C5 (code-bug evaluation): the realm gate halts distance scheduling
while a realm scene is pending (first conjunct, as claimed); but once the
pinned scene has resolved (its `Exists` entry is cached, so the pending
retain empties the list), the gate still refuses to run because
`realm_scenes` is non-empty — distance scheduling never resumes in a realm
that mandates any scene (third conjunct), contrary to the claim; with no
realm-mandated scenes at all it does run (fourth conjunct). -/
theorem c5_realm_gate_never_reopens :
    (distance_scheduling_runs []
      ⟨[PointerResult.Exists "H"], some (), [("H", "urn")]⟩ = false)
    ∧ (retainPending [(⟨0, 0⟩, PointerResult.Exists "H")]
        [PointerResult.Exists "H"] = [])
    ∧ (distance_scheduling_runs [(⟨0, 0⟩, PointerResult.Exists "H")]
        ⟨[], some (), [("H", "urn")]⟩ = false)
    ∧ (distance_scheduling_runs [] ⟨[], some (), []⟩ = true) := by
  decide

theorem nothing_ne_of_parcel_ne (p q : IVec2) (hpq : p ≠ q) :
    PointerResult.Nothing p.x p.y ≠ PointerResult.Nothing q.x q.y := by
  intro h
  apply hpq
  obtain ⟨px, py⟩ := p
  obtain ⟨qx, qy⟩ := q
  injection h with hx hy
  dsimp at hx hy
  rw [hx, hy]

/-- C10: `PointerResult::Nothing` carries its own parcel coordinates, so
negative entries of distinct parcels are distinct values, and inserting
the negative result for `q` into the bimap never evicts the cached
negative entry for `p ≠ q` (insertion only removes pairs sharing the left
key or the right value). -/
theorem c10_negative_entries_distinct (p q : IVec2) (m : BiMap)
    (hpq : p ≠ q)
    (hmem : (p, PointerResult.Nothing p.x p.y) ∈ m) :
    (PointerResult.Nothing p.x p.y ≠ PointerResult.Nothing q.x q.y)
    ∧ (p, PointerResult.Nothing p.x p.y) ∈
        BiMap.insert m q (PointerResult.Nothing q.x q.y) := by
  refine ⟨nothing_ne_of_parcel_ne p q hpq, ?_⟩
  unfold BiMap.insert
  rw [List.mem_append]
  left
  rw [List.mem_filter]
  refine ⟨hmem, ?_⟩
  simp only [Bool.and_eq_true, Bool.not_eq_true', decide_eq_false_iff_not]
  exact ⟨hpq, nothing_ne_of_parcel_ne p q hpq⟩

/-- Witness for C10 at a concrete input. -/
theorem c10_negative_entries_distinct_witness :
    ((⟨0, 0⟩ : IVec2) ≠ ⟨1, 0⟩)
    ∧ ((⟨0, 0⟩ : IVec2), PointerResult.Nothing 0 0) ∈
        ([(⟨0, 0⟩, PointerResult.Nothing 0 0)] : BiMap)
    ∧ ((⟨0, 0⟩ : IVec2), PointerResult.Nothing 0 0) ∈
        BiMap.insert [(⟨0, 0⟩, PointerResult.Nothing 0 0)] ⟨1, 0⟩
          (PointerResult.Nothing 1 0) :=
  ⟨by decide, by decide,
    (c10_negative_entries_distinct ⟨0, 0⟩ ⟨1, 0⟩
      [(⟨0, 0⟩, PointerResult.Nothing 0 0)] (by decide) (by decide)).2⟩

/-- C6 counterexample: parcel (2,3) resolves to `Nothing` (first
conjunct); later a retrieved active entity `H` spanning (2,3) and (2,4)
inserts `Exists H` at (2,3) (overwriting the negative entry) and then at
(2,4) — the bimap's overwrite-both `insert` evicts (2,3)'s pair because it
shares the right value `Exists H`.  (2,3) is left with no cache entry, so
a later required-set computation includes it in a new pointer network
request, contradicting the unamended claim. -/
theorem c6_counterexample_negative_entry_evicted :
    (applyCacheInserts [] [CacheInsert.empty ⟨2, 3⟩] =
      [(⟨2, 3⟩, PointerResult.Nothing 2 3)])
    ∧ ((⟨2, 3⟩ : IVec2) ∈ pointerRequest
        (applyCacheInserts [] [CacheInsert.empty ⟨2, 3⟩,
          CacheInsert.found ⟨2, 3⟩ "H", CacheInsert.found ⟨2, 4⟩ "H"])
        (requiredParcels
          (applyCacheInserts [] [CacheInsert.empty ⟨2, 3⟩,
            CacheInsert.found ⟨2, 3⟩ "H", CacheInsert.found ⟨2, 4⟩ "H"])
          [] [⟨2, 3⟩])) := by
  decide

theorem mem_applyCacheInsert (m : BiMap) (p : IVec2) (op : CacheInsert)
    (hmem : (p, PointerResult.Nothing p.x p.y) ∈ m)
    (hop : CacheInsert.parcel op ≠ p) :
    (p, PointerResult.Nothing p.x p.y) ∈ applyCacheInsert m op := by
  cases op with
  | found q h =>
      show (p, PointerResult.Nothing p.x p.y) ∈
        BiMap.insert m q (PointerResult.Exists h)
      unfold BiMap.insert
      rw [List.mem_append]
      left
      rw [List.mem_filter]
      refine ⟨hmem, ?_⟩
      simp only [Bool.and_eq_true, Bool.not_eq_true',
        decide_eq_false_iff_not]
      exact ⟨fun hh => hop hh.symm,
        fun hc => PointerResult.noConfusion hc⟩
  | empty q =>
      show (p, PointerResult.Nothing p.x p.y) ∈
        BiMap.insert m q (PointerResult.Nothing q.x q.y)
      unfold BiMap.insert
      rw [List.mem_append]
      left
      rw [List.mem_filter]
      refine ⟨hmem, ?_⟩
      simp only [Bool.and_eq_true, Bool.not_eq_true',
        decide_eq_false_iff_not]
      exact ⟨fun hh => hop hh.symm,
        nothing_ne_of_parcel_ne p q (fun hh => hop hh.symm)⟩

theorem mem_applyCacheInserts (p : IVec2) (ops : List CacheInsert) :
    ∀ m : BiMap, (p, PointerResult.Nothing p.x p.y) ∈ m →
      avoidsParcel p ops = true →
      (p, PointerResult.Nothing p.x p.y) ∈ applyCacheInserts m ops := by
  induction ops with
  | nil => intro m hm _; exact hm
  | cons op rest ih =>
      intro m hm hav
      rw [avoidsParcel, Bool.and_eq_true, Bool.not_eq_true'] at hav
      exact ih (applyCacheInsert m op)
        (mem_applyCacheInsert m p op hm (of_decide_eq_false hav.1)) hav.2

/-- C6 amended: once a parcel's pointer has resolved to
`PointerResult::Nothing`, every later invocation of
`process_scene_lifecycle` excludes that parcel from the pointer network
request set — the required set is filtered against cached pointers — for
as long as no subsequent cache insertion targets that same parcel (cache
insertions at other parcels, positive or negative, never remove the
negative entry; realm changes, which purge the cache, are outside the
sequence).  The unamended claim fails because an `Exists` insert at the
parcel itself followed by a same-hash insert at another parcel can evict
the entry entirely, see `c6_counterexample_negative_entry_evicted`. -/
theorem c6_amended_negative_cache_excludes (pointers : BiMap) (p : IVec2)
    (hcached : (p, PointerResult.Nothing p.x p.y) ∈ pointers)
    (ops : List CacheInsert) (hops : avoidsParcel p ops = true)
    (live : LiveScenes) (inRange : List IVec2) :
    p ∉ pointerRequest (applyCacheInserts pointers ops)
      (requiredParcels (applyCacheInserts pointers ops) live inRange) := by
  intro hp
  have hmem := mem_applyCacheInserts p ops pointers hcached hops
  have hfs : (List.find? (fun pr => decide (pr.1 = p))
      (applyCacheInserts pointers ops)).isSome = true :=
    List.find?_isSome.mpr
      ⟨(p, PointerResult.Nothing p.x p.y), hmem, by simp⟩
  have hsome : (BiMap.get_by_left (applyCacheInserts pointers ops)
      p).isSome = true := by
    unfold BiMap.get_by_left
    rw [Option.isSome_map']
    exact hfs
  unfold pointerRequest at hp
  rw [List.mem_filter] at hp
  have hreq := hp.1
  unfold requiredParcels at hreq
  rw [List.mem_filter, Bool.and_eq_true] at hreq
  have hnone : BiMap.get_by_left (applyCacheInserts pointers ops) p =
      none := Option.isNone_iff_eq_none.mp hreq.2.2
  rw [hnone] at hsome
  cases hsome

/-- Witness for the amended C6 at a concrete input. -/
theorem c6_amended_negative_cache_witness :
    ((⟨2, 3⟩ : IVec2), PointerResult.Nothing 2 3) ∈
      ([(⟨2, 3⟩, PointerResult.Nothing 2 3)] : BiMap)
    ∧ avoidsParcel ⟨2, 3⟩ [CacheInsert.found ⟨5, 5⟩ "X"] = true
    ∧ (⟨2, 3⟩ : IVec2) ∉ pointerRequest
        (applyCacheInserts [(⟨2, 3⟩, PointerResult.Nothing 2 3)]
          [CacheInsert.found ⟨5, 5⟩ "X"])
        (requiredParcels
          (applyCacheInserts [(⟨2, 3⟩, PointerResult.Nothing 2 3)]
            [CacheInsert.found ⟨5, 5⟩ "X"])
          [] [⟨2, 3⟩, ⟨5, 5⟩]) :=
  ⟨by decide, by decide,
    c6_amended_negative_cache_excludes
      [(⟨2, 3⟩, PointerResult.Nothing 2 3)] ⟨2, 3⟩ (by decide)
      [CacheInsert.found ⟨5, 5⟩ "X"] (by decide) [] [⟨2, 3⟩, ⟨5, 5⟩]⟩

/-- C8: in every `Loading` substate, a `Failed` load-state resolution (or
a loaded asset that does not resolve to the expected format) makes the
corresponding system recursively despawn the scene entity; none of the
three loading systems ever produces the `MarkBroken` action — the broken
flag is never entered by a load failure. -/
theorem c8_load_failure_despawns_never_broken :
    (∀ (d : Option SceneDefinition) (m : Except String Unit),
      load_scene_json_step .Failed d m = .Despawn)
    ∧ (∀ m : Except String Unit,
      load_scene_json_step .Loaded none m = .Despawn)
    ∧ (∀ (ls : LoadState) (d : Option SceneDefinition)
        (m : Except String Unit),
      load_scene_json_step ls d m ≠ .MarkBroken)
    ∧ (∀ (m : Option Unit) (j : Except String Unit),
      load_scene_javascript_step .Failed m j = .Despawn)
    ∧ (∀ j : Except String Unit,
      load_scene_javascript_step .Loaded none j = .Despawn)
    ∧ (∀ (ls : LoadState) (m : Option Unit) (j : Except String Unit),
      load_scene_javascript_step ls m j ≠ .MarkBroken)
    ∧ (∀ j : Option Unit, initialize_scene_step .Failed j = .Despawn)
    ∧ (initialize_scene_step .Loaded none = .Despawn)
    ∧ (∀ (ls : LoadState) (j : Option Unit),
      initialize_scene_step ls j ≠ .MarkBroken) := by
  refine ⟨fun d m => rfl, fun m => rfl, ?_, fun m j => rfl, fun j => rfl,
    ?_, fun j => rfl, rfl, ?_⟩
  · intro ls d m
    cases ls <;> cases d <;> cases m <;>
      simp only [load_scene_json_step] <;>
      first
        | (split <;> simp)
        | simp
  · intro ls m j
    cases ls <;> cases m <;> cases j <;>
      simp [load_scene_javascript_step]
  · intro ls j
    cases ls <;> cases j <;> simp [initialize_scene_step]

end BevyExplorer
